import Mathlib

/-!
Shallow embedding of the EZChat realtime chat backend and proofs about it.

The definitions below are transcribed from the Python sources:
  * `backend/websocket/manager.py`   (connection manager, message handlers,
    batched write buffer, read-receipt aggregation, dispatch loop)
  * `backend/utils/rate_limiter.py`  (sliding-window rate limiter)
  * `backend/api/routes/group.py`    (group member removal / role update)

Machine times (`time.time()`, `datetime.utcnow()`) are modelled as abstract
instants: rationals where arithmetic comparisons matter (`time.time()` deltas),
naturals where a timestamp is only stored and compared for equality.
Asynchronous store calls are modelled as pure state transformers; the
document store is a map from ids to documents.
-/

namespace EZChat

/-- `MessageStatus` from `backend/schemas/message.py`. -/
inductive MessageStatus where
  | sent
  | delivered
  | read
deriving DecidableEq

/-- The `code` field of an `ErrorMessage` is either a numeric HTTP-style code
(401, 403, 429, ...) or a symbolic string (`"FORBIDDEN"`, `"NOT_MEMBER"`, ...)
in the source. -/
inductive ErrCode where
  | num (n : Nat)
  | str (s : String)
deriving DecidableEq

/-- Outbound wire messages, restricted to the constructors the claims need.
Fields follow `backend/websocket/protocol.py`. -/
inductive WsMsg where
  | textMsg (from_user : String) (to_user : Option String) (group_id : Option String)
      (message_id : String) (text : String) (status : MessageStatus)
  | errorMsg (code : ErrCode) (message : String)
  | statusMsg (status : String) (message : String)
  | editMsg (from_user : String) (to_user : Option String) (group_id : Option String)
      (message_id : String) (text : String)
  | deleteMsg (from_user : String) (to_user : Option String) (group_id : Option String)
      (message_id : String)
  | readReceiptBatch (from_user : String) (to_user : String)
      (message_ids : List String) (contact_id : Option String)
  | pong (timestamp : Nat)
deriving DecidableEq

/-- An outbound send performed by a handler: either a targeted
`send_personal_message`, a `send_group_message` fan-out, or a
`broadcast_to_related_connections` call (recorded with its arguments). -/
inductive WsOut where
  | personal (recipient : String) (msg : WsMsg)
  | groupSend (group_id : String) (sender : String) (msg : WsMsg)
  | relatedBroadcast (msg : WsMsg) (from_user : String) (to_user : String)
deriving DecidableEq

/-- A message document as stored in the `messages` collection
(see the `message_doc` dictionaries built in `manager.py`).  Fields that the
Python code reads with `.get` (and that may be absent) are `Option`s. -/
structure MsgDoc where
  _id : String
  sender_id : String
  recipient_id : Option String := none
  group_id : Option String := none
  conversation_id : Option String := none
  text : String := ""
  attachments : List String := []
  reply_to : Option String := none
  timestamp : Nat := 0
  created_at : Nat := 0
  updated_at : Nat := 0
  status : MessageStatus := .sent
  msgType : String := "message"
  is_edited : Bool := false
  edited_at : Option Nat := none
  is_deleted : Bool := false
  deleted_at : Option Nat := none
  read_at : Option Nat := none
deriving DecidableEq

/-- The `messages` collection, keyed by `_id` (which Mongo keeps unique). -/
def Store : Type := String → Option MsgDoc

/-- `generate_conversation_id` (`manager.py` lines 76-78):
`f"{min(user1, user2)}_{max(user1, user2)}"` — Python `min`/`max` on strings
is lexicographic comparison, matching `min`/`max` of Lean's `String` order. -/
def generate_conversation_id (user1 user2 : String) : String :=
  min user1 user2 ++ "_" ++ max user1 user2

/-- Spec-side definition, for the refinement comparison in claim C8: the two
identities sorted lexicographically and joined by an underscore. -/
def sortedPairJoin (a b : String) : String :=
  if a ≤ b then a ++ "_" ++ b else b ++ "_" ++ a

/-! ## Rate limiter (`backend/utils/rate_limiter.py`) -/

/-- `collections.deque(maxlen=m).append(x)`: the deque keeps the last `m`
elements, discarding from the left on overflow. -/
def dequeAppend (maxlen : Nat) (xs : List ℚ) (x : ℚ) : List ℚ :=
  let ys := xs ++ [x]
  ys.drop (ys.length - maxlen)

/-- `RateLimiter.__init__`: `limit`, `window`, and
`request_history: defaultdict(lambda: deque(maxlen=limit+1))`
(per-identity history of request timestamps, oldest first). -/
structure RateLimiter where
  limit : Nat
  window : ℚ
  request_history : String → List ℚ

/-- A fresh limiter: `defaultdict` yields an empty deque for every identity. -/
def RateLimiter.init (limit : Nat) (window : ℚ) : RateLimiter :=
  ⟨limit, window, fun _ => []⟩

/-- Write back the (single mutated) per-identity deque. -/
def RateLimiter.setHistory (rl : RateLimiter) (user_id : String) (h : List ℚ) :
    RateLimiter :=
  { rl with request_history := fun u => if u = user_id then h else rl.request_history u }

/-- `RateLimiter.is_allowed` (`rate_limiter.py` lines 32-63): append the current
timestamp; allow while `len(history) <= limit`; otherwise allow (after evicting
the oldest entry) exactly when the oldest entry is older than the window;
a disallowed call keeps its appended timestamp. -/
def RateLimiter.is_allowed (rl : RateLimiter) (user_id : String) (current_time : ℚ) :
    Bool × RateLimiter :=
  let history := rl.request_history user_id
  let h1 := dequeAppend (rl.limit + 1) history current_time
  if h1.length ≤ rl.limit then
    (true, rl.setHistory user_id h1)
  else
    match h1 with
    | [] => (true, rl.setHistory user_id h1)  -- unreachable: h1 is nonempty
    | oldest :: rest =>
      if rl.window < current_time - oldest then
        (true, rl.setHistory user_id rest)    -- popleft, then allow
      else
        (false, rl.setHistory user_id h1)

/-- A sequence of `is_allowed` calls for one identity at the given times. -/
def RateLimiter.runCalls (rl : RateLimiter) (user_id : String) : List ℚ → RateLimiter
  | [] => rl
  | t :: ts => RateLimiter.runCalls (rl.is_allowed user_id t).2 user_id ts

/-! ## Batched write buffer (`manager.py` lines 69-72, 175-210) -/

/-- The module-level batching state: `messages_to_store` and `last_db_flush`. -/
structure WriteBuffer where
  messages_to_store : List MsgDoc
  last_db_flush : ℚ
deriving DecidableEq

/-- `schedule_message_storage` (`manager.py` lines 199-210): append the
document, then compute
`should_flush = len(messages_to_store) >= 20 or (messages_to_store and current_time - last_db_flush > 2)`;
when true an asynchronous `flush_messages_to_db` task is created (returned
here as the `Bool` component). -/
def schedule_message_storage (st : WriteBuffer) (message_doc : MsgDoc)
    (current_time : ℚ) : WriteBuffer × Bool :=
  let q := st.messages_to_store ++ [message_doc]
  let should_flush : Bool :=
    decide (20 ≤ q.length) || (!q.isEmpty && decide (2 < current_time - st.last_db_flush))
  ({ st with messages_to_store := q }, should_flush)

/-- Result of one `flush_messages_to_db` run: the new buffer state and the
batch handed to `insert_many` (`none` when the queue was empty and the flush
returned early without touching the store). -/
structure FlushOutcome where
  state : WriteBuffer
  attempted : Option (List MsgDoc)
deriving DecidableEq

/-- `flush_messages_to_db` (`manager.py` lines 175-196), run under
`db_flush_lock`: return early when nothing is pending; otherwise swap the
whole queue out, stamp `last_db_flush`, and `insert_many` the batch; on an
insert exception the failed batch is appended back onto the queue. -/
def flush_messages_to_db (st : WriteBuffer) (current_time : ℚ) (insertOk : Bool) :
    FlushOutcome :=
  if st.messages_to_store.isEmpty then ⟨st, none⟩
  else
    let messages_to_flush := st.messages_to_store
    -- messages_to_store = []; last_db_flush = time.time()
    if insertOk then
      ⟨⟨[], current_time⟩, some messages_to_flush⟩
    else
      -- except: messages_to_store.extend(messages_to_flush)
      ⟨⟨[] ++ messages_to_flush, current_time⟩, some messages_to_flush⟩

/-! ## Text-message handling (`manager.py` lines 631-636, 748-858) -/

/-- `ConnectionManager.is_user_online` (`manager.py` lines 631-636): the user
must have an active connection *and* an explicit `"online"` presence status. -/
def is_user_online (active_connections : List String)
    (user_statuses : String → Option String) (user_id : String) : Bool :=
  decide (user_id ∈ active_connections) && (user_statuses user_id == some "online")

/-- `validate_message` (`manager.py` lines 139-172).  In this embedding the
required scalar fields (`_id`, `sender_id`, `timestamp`, `created_at`,
`updated_at`, `type`) are structurally present, so only the checks that can
fail on a `MsgDoc` remain: `conversation_id` presence and the
`recipient_id`/`group_id` exclusivity rules. -/
def validate_message (m : MsgDoc) : Bool × Option String :=
  if m.conversation_id = none then
    (false, some "Missing required field: conversation_id")
  else if m.recipient_id ≠ none ∧ m.group_id ≠ none then
    (false, some "Message cannot have both recipient_id and group_id")
  else if m.recipient_id = none ∧ m.group_id = none then
    (false, some "Message must have either recipient_id or group_id")
  else
    (true, none)

/-- The fields of the `payload` dict that `handle_text_message` reads.
Python `.get` absence is `none`; falsy strings are modelled by `""`. -/
structure TextPayload where
  _id : Option String := none
  conversation_id : Option String := none
  text : String := ""
  timestamp : Option Nat := none
  group_id : Option String := none
deriving DecidableEq

/-- What one `handle_text_message` invocation did: frames sent, the document
scheduled into the batched write buffer (if any), whether a
`send_new_message_notification` task was spawned, and whether a
`pydantic.ValidationError` escaped the handler (the dispatch loop's catch-all
then answers with a code-500 frame, see `dispatchExceptionFrames`). -/
structure TextResult where
  frames : List WsOut
  scheduled : Option MsgDoc
  pushScheduled : Bool
  raised : Bool
deriving DecidableEq

/-- `handle_text_message` (`manager.py` lines 748-858).  External collaborators
enter as parameters: `isMember` is the awaited `is_user_group_member` result,
`freshId` the `str(uuid.uuid4())` default, `now` the `datetime.utcnow()`
instant, and `active_connections`/`user_statuses` the registry state consulted
by delivery and by `is_user_online`. -/
def handle_text_message (payload : TextPayload) (from_user : String)
    (to_user : Option String) (isMember : Bool)
    (active_connections : List String) (user_statuses : String → Option String)
    (freshId : String) (now : Nat) : TextResult :=
  -- `if not payload.get("text"): return`
  if payload.text = "" then ⟨[], none, false, false⟩
  else
    let message_id := payload._id.getD freshId
    let timestamp := payload.timestamp.getD now
    let group_id := payload.group_id.getD ""
    -- `is_group_message = bool(group_id)`
    if group_id ≠ "" then
      if !isMember then
        -- `ErrorMessage(error=..., code="NOT_MEMBER")`: `protocol.ErrorMessage`
        -- requires `code: int` and `message: str`, so this constructor raises
        -- `pydantic.ValidationError` before anything is sent; the dispatch
        -- loop's catch-all answers with a code-500 frame.
        ⟨[], none, false, true⟩
      else
        let conversation_id := group_id
        let message_doc : MsgDoc :=
          { _id := message_id, sender_id := from_user, recipient_id := none,
            group_id := some group_id, conversation_id := some conversation_id,
            text := payload.text, timestamp := timestamp, created_at := now,
            updated_at := now, status := .sent, msgType := "message" }
        if (validate_message message_doc).1 = false then
          -- `ErrorMessage(error=..., code="INVALID_FORMAT")` raises likewise.
          ⟨[], none, false, true⟩
        else
          let ws_message : WsMsg :=
            .textMsg from_user none (some group_id) message_id payload.text .sent
          ⟨[.groupSend group_id from_user ws_message], some message_doc, false, false⟩
    else
      -- direct message: `recipient_id = to_user; if not recipient_id: error`
      let recipient_id := to_user.getD ""
      if recipient_id = "" then
        -- `ErrorMessage(error=..., code="MISSING_RECIPIENT")` raises likewise.
        ⟨[], none, false, true⟩
      else
        let conversation_id :=
          payload.conversation_id.getD (generate_conversation_id from_user recipient_id)
        let message_doc : MsgDoc :=
          { _id := message_id, sender_id := from_user,
            recipient_id := some recipient_id, group_id := none,
            conversation_id := some conversation_id, text := payload.text,
            timestamp := timestamp, created_at := now, updated_at := now,
            status := .sent, msgType := "message" }
        if (validate_message message_doc).1 = false then
          -- `ErrorMessage(error=..., code="INVALID_FORMAT")` raises likewise.
          ⟨[], none, false, true⟩
        else
          let ws_message : WsMsg :=
            .textMsg from_user (some recipient_id) none message_id payload.text .sent
          ⟨[.personal recipient_id ws_message,
            .personal from_user ws_message],           -- echo to the sender
            some message_doc,
            -- `if not connection_manager.is_user_online(recipient_id): create_task(...)`
            !is_user_online active_connections user_statuses recipient_id,
            false⟩

/-! ## Read-receipt batch handling (`manager.py` lines 1221-1343) -/

/-- The `$set` of the batch update:
`{"status": MessageStatus.READ, "read_at": datetime.utcnow()}`. -/
def markRead (now : Nat) (m : MsgDoc) : MsgDoc :=
  { m with status := .read, read_at := some now }

/-- Whether the store holds a document with this id whose `recipient_id` is the
reader — the filter `{"_id": {"$in": chunk}, "recipient_id": from_user}`. -/
def addressedTo (store : Store) (from_user : String) (i : String) : Bool :=
  match store i with
  | some d => d.recipient_id == some from_user
  | none => false

/-- The chunked loop body of `handle_read_receipt_batch`
(`for i in range(0, len(message_ids), chunk_size)` with `chunk_size = 50`):
per chunk, `find` the ids that exist and are addressed to the reader,
`update_many` them to read status, and accumulate them into `valid_messages`.
Returns the final store and `valid_messages`. -/
def processChunks (now : Nat) (from_user : String) (store : Store)
    (message_ids : List String) : Store × List String :=
  if message_ids.isEmpty then (store, [])
  else
    let chunk := message_ids.take 50
    let existing_ids := chunk.filter (addressedTo store from_user)
    let store' : Store := fun i =>
      if i ∈ existing_ids then (store i).map (markRead now) else store i
    let rest := processChunks now from_user store' (message_ids.drop 50)
    (rest.1, existing_ids ++ rest.2)
termination_by message_ids.length
decreasing_by
  simp only [List.length_drop]
  rename_i h
  have hne : message_ids ≠ [] := by
    intro hnil; rw [hnil] at h; simp at h
  have : 0 < message_ids.length := List.length_pos.mpr hne
  omega

/-- The fields of the `read_receipt_batch` payload. -/
structure BatchPayload where
  messageIds : List String := []
  contactId : Option String := none
deriving DecidableEq

/-- Result of one `handle_read_receipt_batch` invocation. -/
structure BatchResult where
  store : Store
  valid_messages : List String
  frames : List WsOut

/-- `handle_read_receipt_batch` (`manager.py` lines 1221-1343): bail out when
`messageIds` or `contactId` is missing/falsy; process the ids in chunks of 50
(existence + recipient filter, bulk update); if any valid ids remain, notify
the original sender (when connected) and the reader's other device
connections, each with the full `valid_messages` list.  Invalid ids are
dropped silently — no error frame is ever produced. -/
def handle_read_receipt_batch (payload : BatchPayload) (from_user : String)
    (active_connections : List String) (store : Store) (now : Nat) : BatchResult :=
  let message_ids := payload.messageIds
  let contact_id := payload.contactId.getD ""
  if message_ids.isEmpty || contact_id == "" then ⟨store, [], []⟩
  else
    let processed := processChunks now from_user store message_ids
    let valid_messages := processed.2
    if valid_messages.isEmpty then ⟨processed.1, valid_messages, []⟩
    else
      let sender_note : List WsOut :=
        if contact_id ∈ active_connections then
          [.personal contact_id
            (.readReceiptBatch from_user contact_id valid_messages (some from_user))]
        else []
      let reader_base_id := (from_user.splitOn ":").headD ""
      let reader_notes : List WsOut :=
        (active_connections.filter (fun conn_id =>
            !(conn_id == from_user) && !(conn_id == contact_id)
              && conn_id.startsWith reader_base_id)).map
          (fun conn_id =>
            .personal conn_id
              (.readReceiptBatch from_user conn_id valid_messages (some contact_id)))
      ⟨processed.1, valid_messages, sender_note ++ reader_notes⟩

/-! ## Edit / delete handling (`manager.py` lines 98-130, 213-270, 981-1163) -/

/-- `get_cached_message` (`manager.py` lines 110-121): cache hit, else a
(semaphore-gated) `find_one` that populates the cache on success.  Returns the
lookup result and the possibly-updated cache. -/
def get_cached_message (message_cache db : Store) (message_id : String) :
    Option MsgDoc × Store :=
  match message_cache message_id with
  | some m => (some m, message_cache)
  | none =>
    match db message_id with
    | some m => (some m, fun j => if j = message_id then some m else message_cache j)
    | none => (none, message_cache)

/-- `_get_status_update_query` (`manager.py` lines 124-130): the `$set` merges
`{"status": status}` with the extra update fields. -/
def _get_status_update_query (status : MessageStatus) (update_fields : MsgDoc → MsgDoc) :
    MsgDoc → MsgDoc :=
  fun m => update_fields { m with status := status }

/-- Result of `update_message_status`: success flag plus the message cache and
the store after the call. -/
structure UpdateResult where
  ok : Bool
  message_cache : Store
  db : Store

/-- `update_message_status` (`manager.py` lines 213-270): missing id → `False`;
existence check (cache first, then a projected `find_one`); `update_one` with
the merged `$set`; `matched_count == 0` → `False`; finally mirror the update
into the cache entry when one exists. -/
def update_message_status (message_cache db : Store) (message_id : String)
    (status : MessageStatus) (update_fields : MsgDoc → MsgDoc) : UpdateResult :=
  if message_id = "" then ⟨false, message_cache, db⟩
  else
    let message_exists := (message_cache message_id).isSome || (db message_id).isSome
    if !message_exists then ⟨false, message_cache, db⟩
    else
      let q := _get_status_update_query status update_fields
      if (db message_id).isSome then
        let db' : Store := fun j => if j = message_id then (db j).map q else db j
        let cache' : Store := fun j =>
          if j = message_id then (message_cache j).map q else message_cache j
        ⟨true, cache', db'⟩
      else
        ⟨false, message_cache, db⟩  -- update_one matched nothing

/-- The payload fields `handle_edit_message` / `handle_delete_message` read;
`message_id` falls back to the legacy `messageId` alias. -/
structure EditPayload where
  message_id : Option String := none
  messageId : Option String := none
  text : Option String := none
deriving DecidableEq

/-- What an edit/delete invocation did to the cache, the store, and the wire;
`raised = true` records a `pydantic.ValidationError` escaping the handler
(the dispatch loop's catch-all then sends the code-500 frame, see
`dispatchExceptionFrames`).

Note on the wire frames: *every* `ErrorMessage(error=..., code="...")` call in
these two handlers passes a string `code` and no `message`, while
`protocol.ErrorMessage` declares `code: int` and a required `message: str` —
so each of those constructors raises before anything is sent.  On the
authorized path the `StatusMessage(status=..., message=..., payload=...)` ack
omits the required inherited `from_user` field and raises as well, after the
store update but before the ack send and the broadcast.  Hence the handlers
themselves never send a frame. -/
structure HandlerOutcome where
  message_cache : Store
  db : Store
  frames : List WsOut
  raised : Bool

/-- `handle_edit_message` (`manager.py` lines 981-1072): validate the payload;
look the message up cache-first with a direct `find_one` fallback; when the
message is absent (resp. the requester is not the original sender) the handler
attempts `ErrorMessage(error=..., code="NOT_FOUND")` (resp. `"FORBIDDEN"`),
which raises `ValidationError` with no store mutation; on the authorized path
the soft edit is applied through `update_message_status`, after which the
malformed `StatusMessage` ack raises, so neither the ack nor the edit
broadcast is ever sent. -/
def handle_edit_message (message_cache db : Store) (payload : EditPayload)
    (from_user : String) (now : Nat) : HandlerOutcome :=
  let message_id := (payload.message_id <|> payload.messageId).getD ""
  match payload.text with
  | none =>
    -- `ErrorMessage(error=..., code="INVALID_EDIT")` raises ValidationError
    ⟨message_cache, db, [], true⟩
  | some new_text =>
    if message_id = "" then
      ⟨message_cache, db, [], true⟩  -- same INVALID_EDIT construction raises
    else
      let looked := get_cached_message message_cache db message_id
      -- `if not original_message:` → direct (un-gated) find_one fallback
      let original := looked.1 <|> db message_id
      match original with
      | none =>
        -- `ErrorMessage(error="Message not found.", code="NOT_FOUND")` raises
        ⟨looked.2, db, [], true⟩
      | some original_message =>
        if original_message.sender_id ≠ from_user then
          -- `ErrorMessage(error=..., code="FORBIDDEN")` raises
          ⟨looked.2, db, [], true⟩
        else
          let update_fields : MsgDoc → MsgDoc := fun m =>
            { m with text := new_text, is_edited := true,
                     edited_at := some now, updated_at := now }
          let upd := update_message_status looked.2 db message_id
            original_message.status update_fields
          if !upd.ok then
            -- `ErrorMessage(error=..., code="DB_ERROR")` raises
            ⟨upd.message_cache, upd.db, [], true⟩
          else
            -- the `EditMessage` constructs, but the `StatusMessage` ack lacks
            -- the required `from_user` and raises before any send
            ⟨upd.message_cache, upd.db, [], true⟩

/-- `handle_delete_message` (`manager.py` lines 1075-1163): same lookup,
authorization, and collapsed error/ack structure as the edit handler; on the
authorized path the soft delete clears text and attachments and stamps
`is_deleted`/`deleted_at` before the malformed ack raises. -/
def handle_delete_message (message_cache db : Store) (payload : EditPayload)
    (from_user : String) (now : Nat) : HandlerOutcome :=
  let message_id := (payload.message_id <|> payload.messageId).getD ""
  if message_id = "" then
    -- `ErrorMessage(error=..., code="INVALID_DELETE")` raises ValidationError
    ⟨message_cache, db, [], true⟩
  else
    let looked := get_cached_message message_cache db message_id
    let original := looked.1 <|> db message_id
    match original with
    | none =>
      -- `ErrorMessage(error="Message not found.", code="NOT_FOUND")` raises
      ⟨looked.2, db, [], true⟩
    | some original_message =>
      if original_message.sender_id ≠ from_user then
        -- `ErrorMessage(error=..., code="FORBIDDEN")` raises
        ⟨looked.2, db, [], true⟩
      else
        let update_fields : MsgDoc → MsgDoc := fun m =>
          { m with text := "", attachments := [], is_deleted := true,
                   deleted_at := some now, updated_at := now }
        let upd := update_message_status looked.2 db message_id
          original_message.status update_fields
        if !upd.ok then
          -- `ErrorMessage(error=..., code="DB_ERROR")` raises
          ⟨upd.message_cache, upd.db, [], true⟩
        else
          -- the `DeleteMessage` constructs, but the `StatusMessage` ack lacks
          -- the required `from_user` and raises before any send
          ⟨upd.message_cache, upd.db, [], true⟩

/-! ## Group membership operations (`backend/api/routes/group.py`) -/

/-- One entry of a group's `members` array (`schemas/group.py`): the role is a
free-form string with intended values `"admin"` / `"member"`. -/
structure GroupMember where
  user_id : String
  role : String
  is_active : Bool
deriving DecidableEq

/-- A group document, restricted to the fields the member routes touch. -/
structure Group where
  creator_id : String
  members : List GroupMember
deriving DecidableEq

/-- Number of active admins:
`sum(1 for m in group["members"] if m["role"] == "admin" and m["is_active"])`. -/
def activeAdminCount (ms : List GroupMember) : Nat :=
  (ms.filter (fun m => m.role == "admin" && m.is_active)).length

/-- Whether `u` appears as an active admin (the `any(...)` admin checks). -/
def isActiveAdmin (g : Group) (u : String) : Bool :=
  g.members.any (fun m => m.user_id == u && m.role == "admin" && m.is_active)

/-- Whether `u` appears as an active member. -/
def isActiveMember (g : Group) (u : String) : Bool :=
  g.members.any (fun m => m.user_id == u && m.is_active)

/-- `next((m for m in members if m["user_id"] == user_id and m["is_active"]), None)`. -/
def findActiveMember (g : Group) (u : String) : Option GroupMember :=
  g.members.find? (fun m => m.user_id == u && m.is_active)

/-- Mongo's positional `update_one({"members.user_id": uid}, {"$set": {"members.$...."}})`:
apply `f` to the first array element whose `user_id` matches. -/
def modifyFirst (f : GroupMember → GroupMember) : List GroupMember → String → List GroupMember
  | [], _ => []
  | m :: ms, uid =>
    if m.user_id == uid then f m :: ms else m :: modifyFirst f ms uid

/-- `remove_group_member` (`group.py` lines 326-419), group already fetched:
permission check (self-removal, or an active admin removing others), target
must be an active member, and — only when removing someone *else* — the
last-active-admin guard; then the member is deactivated in place. -/
def remove_group_member (g : Group) (current_user user_id : String) :
    Except String Group :=
  let user_is_member := isActiveMember g current_user
  let is_admin := isActiveAdmin g current_user
  if !user_is_member || (!(user_id == current_user) && !is_admin) then
    .error "You don't have permission to remove this member"
  else
    match findActiveMember g user_id with
    | none => .error "User is not a member of this group"
    | some target_member =>
      -- `if user_id != current_user:` — the guard is skipped when removing self
      if !(user_id == current_user)
          && (activeAdminCount g.members == 1 && target_member.role == "admin") then
        .error "Cannot remove the last admin. Promote another member to admin first."
      else
        .ok { g with members :=
          modifyFirst (fun m => { m with is_active := false }) g.members user_id }

/-- `update_group_member_role` (`group.py` lines 422-505), group already
fetched: caller must be an active admin; target must be an active member; the
last-admin guard fires only for an explicit demotion (`role == "member"` on a
target whose role is `"admin"`); then the provided `role`/`is_active` fields
are set positionally (no update statement at all when both are absent). -/
def update_group_member_role (g : Group) (current_user user_id : String)
    (role : Option String) (is_active : Option Bool) : Except String Group :=
  if !isActiveAdmin g current_user then
    .error "Only group admins can update member roles"
  else
    match findActiveMember g user_id with
    | none => .error "User is not a member of this group"
    | some target_member =>
      if role == some "member" && target_member.role == "admin"
          && activeAdminCount g.members == 1 then
        .error "Cannot demote the last admin. Promote another member to admin first."
      else
        if role == none && is_active == none then .ok g
        else
          let setFields : GroupMember → GroupMember := fun m =>
            { m with role := role.getD m.role,
                     is_active := is_active.getD m.is_active }
          .ok { g with members := modifyFirst setFields g.members user_id }

/-! ## Read-receipt aggregation drain loop (`manager.py` lines 311-417) -/

/-- One buffered read event, as enqueued by `handle_read_receipt`
(`manager.py` lines 1199-1205). -/
structure Receipt where
  message_id : String
  to_user : String
  contact_id : Option String
deriving DecidableEq

/-- A bulk read-status store update (what §4.5 of the spec expects the drain
loop to issue; used to record the drain loop's store writes). -/
structure BulkReadUpdate where
  reader : String
  message_ids : List String
deriving DecidableEq

/-- The insertion-ordered key list of the Python dict built by
`by_recipient[recipient].append(receipt)` grouping. -/
def dictGroupKeys (receipts : List Receipt) : List String :=
  receipts.foldl (fun acc r => if r.to_user ∈ acc then acc else acc ++ [r.to_user]) []

/-- The receipts grouped under one original sender. -/
def groupReceipts (receipts : List Receipt) (recipient : String) : List Receipt :=
  receipts.filter (fun r => r.to_user == recipient)

/-- `[r.get("message_id") for r in batch if r.get("message_id")]`. -/
def groupMessageIds (receipts : List Receipt) (recipient : String) : List String :=
  ((groupReceipts receipts recipient).map (fun r => r.message_id)).filter (fun s => s ≠ "")

/-- Whether this reader's drain iteration raises `pydantic.ValidationError`:
`ReadReceiptBatchMessage.contact_id` is a required `str` (`protocol.py`), but
`handle_read_receipt` enqueues receipts unvalidated with
`contact_id = payload.get("contactId")`, which may be `None`.  The
consolidated message for a group is constructed (`manager.py` line 363)
for every group with a non-empty id list, *before* the sender-connected
check, inside the per-reader `try`; so one failing construction aborts the
reader's whole iteration. -/
def drainReaderRaises (receipts : List Receipt) : Bool :=
  (dictGroupKeys receipts).any (fun recipient =>
    !(groupMessageIds receipts recipient).isEmpty
      && ((groupReceipts receipts recipient).headD ⟨"", "", none⟩).contact_id == none)

/-- What one drain cycle did for one reader's buffered receipts
(`manager.py` lines 332-412): group by original sender, and per group send one
consolidated batch receipt to the sender's connection (when connected) and one
per other connection of the reader.  When any group's
`ReadReceiptBatchMessage` construction raises (see `drainReaderRaises`), the
per-reader `except ... pass` (lines 408-412) swallows the error before the
`asyncio.gather`, so none of this reader's notifications is sent. -/
def drainReaderFrames (reader : String) (receipts : List Receipt)
    (active_connections : List String) : List WsOut :=
  if drainReaderRaises receipts then []
  else
    let user_base_id := (reader.splitOn ":").headD ""
    let broadcast_targets := active_connections.filter (fun c => c.startsWith user_base_id)
    ((dictGroupKeys receipts).map (fun recipient =>
      let batch := groupReceipts receipts recipient
      let message_ids := groupMessageIds receipts recipient
      if message_ids.isEmpty then []
      else
        (if recipient ∈ active_connections then
          [WsOut.personal recipient
            (.readReceiptBatch reader recipient message_ids
              ((batch.headD ⟨"", "", none⟩).contact_id))]
         else [])
        ++ (broadcast_targets.filter (fun t => !(t == recipient))).map
            (fun t => WsOut.personal t
              (.readReceiptBatch reader t message_ids (some recipient))))).flatten

/-- Result of one wake-up of `process_read_receipts`. -/
structure DrainResult where
  storeUpdates : List BulkReadUpdate
  frames : List WsOut

/-- One cycle of the `process_read_receipts` background loop (`manager.py`
lines 311-417): swap out every non-empty per-reader buffer and, per reader,
emit the grouped batch notifications.  The loop body contains no
document-store call at all — `storeUpdates` is always empty; the only store
writes for read status live in `handle_read_receipt_batch`. -/
def drainCycle (read_receipt_buffer : List (String × List Receipt))
    (active_connections : List String) : DrainResult :=
  let pending_receipts := read_receipt_buffer.filter (fun p => !p.2.isEmpty)
  { storeUpdates := [],
    frames := (pending_receipts.map
      (fun p => drainReaderFrames p.1 p.2 active_connections)).flatten }

/-! ## Store-gate (semaphore) traces

Each function below lists, in order, the document-store operations one
invocation of the corresponding Python function performs, together with
whether the call sits inside an `async with db_semaphore:` block (the bounded
store gate).  Branch outcomes (cache hits, lookup results, ...) enter as
`Bool` parameters.  `async with` releases the semaphore on every exit path,
so a `gated := true` call both acquires before and releases after. -/

/-- The document-store operations appearing in the traces. -/
inductive StoreOp where
  | findOne
  | find
  | insertOne
  | insertMany
  | updateOne
  | updateMany
deriving DecidableEq

/-- One store call, flagged with whether it runs inside `async with db_semaphore`. -/
structure StoreCall where
  op : StoreOp
  gated : Bool
deriving DecidableEq

/-- `get_cached_user` (`manager.py` lines 98-107): cache hit → no store call;
miss → one `find_one` inside the semaphore. -/
def get_cached_user_calls (cacheHit : Bool) : List StoreCall :=
  if cacheHit then [] else [⟨.findOne, true⟩]

/-- `get_cached_message` (`manager.py` lines 110-121): same shape. -/
def get_cached_message_calls (cacheHit : Bool) : List StoreCall :=
  if cacheHit then [] else [⟨.findOne, true⟩]

/-- `flush_messages_to_db` (`manager.py` lines 175-196): when a batch is
pending, one `insert_many` — under `db_flush_lock` but *not* under
`db_semaphore`. -/
def flush_messages_to_db_calls (pending : Bool) : List StoreCall :=
  if pending then [⟨.insertMany, false⟩] else []

/-- `update_message_status` (`manager.py` lines 213-270): existence check
(gated `find_one` on cache miss) and, when the message exists, a gated
`update_one`. -/
def update_message_status_calls (midPresent cacheHit foundInDb : Bool) : List StoreCall :=
  if !midPresent then []
  else
    (if cacheHit then [] else [⟨.findOne, true⟩])
      ++ (if cacheHit || foundInDb then [⟨.updateOne, true⟩] else [])

/-- `handle_read_receipt` (`manager.py` lines 1166-1218): the existence check
runs entirely inside one `async with db_semaphore:` block (cache hit → no
`find_one` issued). -/
def handle_read_receipt_calls (midPresent cacheHit : Bool) : List StoreCall :=
  if !midPresent then [] else if cacheHit then [] else [⟨.findOne, true⟩]

/-- `handle_read_receipt_batch` (`manager.py` lines 1245-1286): per chunk one
gated `find` plus, when any addressed message exists in the chunk, one gated
`update_many`; `chunkHasExisting` lists that outcome per chunk. -/
def handle_read_receipt_batch_calls (chunkHasExisting : List Bool) : List StoreCall :=
  (chunkHasExisting.map (fun hasExisting =>
    [(⟨.find, true⟩ : StoreCall)]
      ++ (if hasExisting then [⟨.updateMany, true⟩] else []))).flatten

/-- `handle_edit_message` (`manager.py` lines 981-1072): `get_cached_message`
(gated on miss); when that finds nothing, a direct `find_one` *outside* any
semaphore block (lines 1000-1002); then, when found and authorized,
`update_message_status` — whose own existence probe is a cache hit, because
`get_cached_message` just populated the cache — i.e. one gated `update_one`. -/
def handle_edit_message_calls (payloadOk cacheHit foundInDb senderOk : Bool) :
    List StoreCall :=
  if !payloadOk then []
  else
    get_cached_message_calls cacheHit
      ++ (if !(cacheHit || foundInDb) then [⟨.findOne, false⟩] else [])
      ++ (if (cacheHit || foundInDb) && senderOk then [⟨.updateOne, true⟩] else [])

/-- `handle_delete_message` (`manager.py` lines 1075-1163): identical store
access shape to the edit handler, including the un-gated fallback `find_one`
(lines 1092-1094). -/
def handle_delete_message_calls (payloadOk cacheHit foundInDb senderOk : Bool) :
    List StoreCall :=
  handle_edit_message_calls payloadOk cacheHit foundInDb senderOk

/-! ## The dispatch loop (`manager.py` lines 1372-1478) -/

/-- The per-type handlers a frame can be dispatched to. -/
inductive HandlerTag where
  | message
  | reply
  | edit
  | delete
  | typing
  | timezone
  | read_receipt
  | read_receipt_batch
  | presence
  | ping
deriving DecidableEq

/-- `WebSocketMessageType` tags (`protocol.py`) mapped to handlers. -/
def handlerFor (message_type : String) : Option HandlerTag :=
  if message_type = "message" then some .message
  else if message_type = "reply" then some .reply
  else if message_type = "edit" then some .edit
  else if message_type = "delete" then some .delete
  else if message_type = "typing" then some .typing
  else if message_type = "timezone" then some .timezone
  else if message_type = "read_receipt" then some .read_receipt
  else if message_type = "read_receipt_batch" then some .read_receipt_batch
  else if message_type = "presence" then some .presence
  else if message_type = "ping" then some .ping
  else none

/-- What the dispatch loop did with one parsed inbound frame. -/
structure DispatchResult where
  sent : List WsMsg              -- frames written straight back on this socket
  dispatchedTo : Option HandlerTag
  heartbeatRefreshed : Bool      -- `connection_manager.update_heartbeat(user_id)`
  connectionOpen : Bool          -- `continue` keeps the receive loop alive
deriving DecidableEq

/-- One iteration of the `websocket_endpoint` receive loop (`manager.py`
lines 1372-1478) for a frame that parsed as JSON: rate-limit check first
(reject with 429, stay connected), then the heartbeat refresh for the
authenticated user, then the sender-spoofing guard
(`if from_user != user_id:` → error 403, `continue`, no handler runs),
then type dispatch (unknown types get error 400). -/
def dispatch_frame (user_id : String) (rateAllowed : Bool)
    (message_type : Option String) (from_user : Option String) : DispatchResult :=
  if !rateAllowed then
    ⟨[.errorMsg (.num 429) "Rate limit exceeded. Please try again later."],
      none, false, true⟩
  else if from_user ≠ some user_id then
    ⟨[.errorMsg (.num 403) "Sender ID does not match authenticated user"],
      none, true, true⟩
  else
    match handlerFor (message_type.getD "") with
    | some tag => ⟨[], some tag, true, true⟩
    | none =>
      ⟨[.errorMsg (.num 400) ("Unknown message type: " ++ message_type.getD "")],
        none, true, true⟩

/-- The dispatch loop's `except Exception` catch-all (`manager.py` lines
1475-1478): an exception escaping a handler — such as the
`pydantic.ValidationError` raised by the malformed `ErrorMessage` /
`StatusMessage` constructions — is answered with
`ErrorMessage(code=500, message="Internal server error")` (a well-formed
construction) on the socket; the connection stays open. -/
def dispatchExceptionFrames (raised : Bool) : List WsMsg :=
  if raised then [.errorMsg (.num 500) "Internal server error"] else []

/-- A concrete two-document store used to evaluate theorems on explicit
inputs: `m1` is addressed to reader `B`, `m2` to a different user `D`. -/
def witnessStore : Store := fun i =>
  if i = "m1" then some { _id := "m1", sender_id := "S", recipient_id := some "B" }
  else if i = "m2" then some { _id := "m2", sender_id := "S", recipient_id := some "D" }
  else none

/-! # Theorems -/

/-- C8: for all identities, `generate_conversation_id` is symmetric and equals
the lexicographically sorted pair joined by `_`; and the direct-message text
handler fills a missing `conversation_id` with exactly this function. -/
theorem conversation_id_symmetric_and_used (A B : String) (payload : TextPayload)
    (from_user recipient : String) (isMember : Bool)
    (active_connections : List String) (user_statuses : String → Option String)
    (freshId : String) (now : Nat)
    (htext : payload.text ≠ "") (hgroup : payload.group_id = none)
    (hconv : payload.conversation_id = none) (hrec : recipient ≠ "") :
    generate_conversation_id A B = generate_conversation_id B A
    ∧ generate_conversation_id A B = sortedPairJoin A B
    ∧ ∃ doc, (handle_text_message payload from_user (some recipient) isMember
        active_connections user_statuses freshId now).scheduled = some doc
      ∧ doc.conversation_id = some (generate_conversation_id from_user recipient) := by
  refine ⟨?_, ?_, ?_⟩
  · rw [generate_conversation_id, generate_conversation_id, min_comm, max_comm]
  · rcases le_or_lt A B with h | h
    · rw [generate_conversation_id, sortedPairJoin, if_pos h, min_eq_left h,
        max_eq_right h]
    · rw [generate_conversation_id, sortedPairJoin, if_neg (not_le.mpr h),
        min_eq_right h.le, max_eq_left h.le]
  · have hml :
        (handle_text_message payload from_user (some recipient) isMember
            active_connections user_statuses freshId now).scheduled =
          some { _id := payload._id.getD freshId, sender_id := from_user,
                 recipient_id := some recipient, group_id := none,
                 conversation_id := some (generate_conversation_id from_user recipient),
                 text := payload.text, timestamp := payload.timestamp.getD now,
                 created_at := now, updated_at := now, status := .sent,
                 msgType := "message" } := by
      simp [handle_text_message, hgroup, hconv, htext, hrec, validate_message]
    exact ⟨_, hml, rfl⟩

/-- C6: `schedule_message_storage` appends the document and signals a flush
exactly when the queue has reached 20 entries or more than 2 seconds have
passed since the last flush; `flush_messages_to_db` hands the whole pending
batch to `insert_many` and, on failure, retains exactly the pending documents,
so no scheduled document is dropped. -/
theorem write_buffer_flush_semantics (st : WriteBuffer) (message_doc : MsgDoc)
    (current_time : ℚ) (insertOk : Bool) :
    ((schedule_message_storage st message_doc current_time).1.messages_to_store
        = st.messages_to_store ++ [message_doc])
    ∧ ((schedule_message_storage st message_doc current_time).2 = true ↔
        (20 ≤ (st.messages_to_store ++ [message_doc]).length
          ∨ ((st.messages_to_store ++ [message_doc]) ≠ []
              ∧ 2 < current_time - st.last_db_flush)))
    ∧ ((flush_messages_to_db st current_time insertOk).attempted
        = if st.messages_to_store.isEmpty then none else some st.messages_to_store)
    ∧ ((flush_messages_to_db st current_time false).state.messages_to_store
        = st.messages_to_store)
    ∧ ((flush_messages_to_db st current_time true).state.messages_to_store = []) := by
  refine ⟨rfl, ?_, ?_, ?_, ?_⟩
  · simp only [schedule_message_storage, Bool.or_eq_true, Bool.and_eq_true,
      decide_eq_true_eq, Bool.not_eq_true', List.isEmpty_eq_false]
  · by_cases h : st.messages_to_store.isEmpty
    · simp [flush_messages_to_db, h]
    · cases insertOk <;> simp [flush_messages_to_db, h]
  · by_cases h : st.messages_to_store.isEmpty
    · simp [flush_messages_to_db, h]
    · simp [flush_messages_to_db, h]
  · by_cases h : st.messages_to_store.isEmpty
    · simp [flush_messages_to_db, h, List.isEmpty_iff.mp h]
    · simp [flush_messages_to_db, h]

/-- C10 counterexample: a frame whose `from` is spoofed but which is rejected
by the rate limiter gets a 429 error frame, not the 403 the claim promises for
*every* spoofed frame (the rate-limit check runs first). -/
theorem spoofed_frame_rate_limited_no_403 :
    (dispatch_frame "A" false (some "message") (some "Mallory")).sent
      = [.errorMsg (.num 429) "Rate limit exceeded. Please try again later."]
    ∧ WsMsg.errorMsg (.num 403) "Sender ID does not match authenticated user"
        ∉ (dispatch_frame "A" false (some "message") (some "Mallory")).sent := by
  constructor
  · rfl
  · decide

/-- C10 (amended): for every inbound frame admitted by the rate limiter whose
`from` differs from the authenticated identity, the dispatch loop sends one
error frame with code 403, dispatches to no handler, and keeps the connection
open (only the authenticated user's heartbeat is refreshed). -/
theorem spoofed_frame_rejected (user_id : String) (message_type : Option String)
    (from_user : Option String) (h : from_user ≠ some user_id) :
    dispatch_frame user_id true message_type from_user
      = ⟨[.errorMsg (.num 403) "Sender ID does not match authenticated user"],
          none, true, true⟩ := by
  simp [dispatch_frame, h]

/-- Witness for the amended C10 theorem at a concrete spoofed frame. -/
theorem spoofed_frame_rejected_witness :
    dispatch_frame "A" true (some "message") (some "Mallory")
      = ⟨[.errorMsg (.num 403) "Sender ID does not match authenticated user"],
          none, true, true⟩ :=
  spoofed_frame_rejected "A" (some "message") (some "Mallory") (by decide)

/-- Witness for C8 at concrete identities and a concrete direct message. -/
theorem conversation_id_witness :
    generate_conversation_id "bob" "alice" = generate_conversation_id "alice" "bob"
    ∧ generate_conversation_id "bob" "alice" = sortedPairJoin "bob" "alice"
    ∧ ∃ doc, (handle_text_message ⟨none, none, "hi", none, none⟩ "alice" (some "bob")
        true [] (fun _ => none) "m1" 0).scheduled = some doc
      ∧ doc.conversation_id = some (generate_conversation_id "alice" "bob") :=
  conversation_id_symmetric_and_used "bob" "alice" ⟨none, none, "hi", none, none⟩
    "alice" "bob" true [] (fun _ => none) "m1" 0 (by decide) rfl rfl (by decide)

/-- C7 counterexample: recipient `B` *has* an active connection but presence
status `"away"`, so `is_user_online` is false and a push notification task is
scheduled anyway — contradicting "when the recipient does have an active
connection, no push notification is scheduled". -/
theorem push_scheduled_despite_connection :
    ("B" ∈ (["B"] : List String))
    ∧ (handle_text_message ⟨none, none, "hi", none, none⟩ "A" (some "B") false ["B"]
        (fun u => if u = "B" then some "away" else none) "m1" 0).pushScheduled
      = true := by
  exact ⟨by decide, by decide⟩

/-- C7 (amended): every accepted direct text message is delivered to the
recipient's connection and echoed to the sender's connection, and a push
notification task is scheduled if and only if the recipient is not online
(`is_user_online`: connected *and* status `"online"`); the notification is
spawned as a fire-and-forget task, never awaited by the handler. -/
theorem direct_message_delivery_and_push (payload : TextPayload)
    (from_user recipient : String) (isMember : Bool)
    (active_connections : List String) (user_statuses : String → Option String)
    (freshId : String) (now : Nat)
    (htext : payload.text ≠ "") (hgroup : payload.group_id.getD "" = "")
    (hrec : recipient ≠ "") :
    (handle_text_message payload from_user (some recipient) isMember
        active_connections user_statuses freshId now).frames =
      [.personal recipient (.textMsg from_user (some recipient) none
          (payload._id.getD freshId) payload.text .sent),
       .personal from_user (.textMsg from_user (some recipient) none
          (payload._id.getD freshId) payload.text .sent)]
    ∧ (handle_text_message payload from_user (some recipient) isMember
        active_connections user_statuses freshId now).pushScheduled
      = !is_user_online active_connections user_statuses recipient := by
  constructor <;>
    simp [handle_text_message, hgroup, htext, hrec, validate_message]

/-- Witness for the amended C7 theorem: offline recipient, push scheduled. -/
theorem direct_message_delivery_and_push_witness :
    (handle_text_message ⟨none, none, "hi", none, none⟩ "A" (some "B") false []
        (fun _ => none) "m1" 0).frames =
      [.personal "B" (.textMsg "A" (some "B") none "m1" "hi" .sent),
       .personal "A" (.textMsg "A" (some "B") none "m1" "hi" .sent)]
    ∧ (handle_text_message ⟨none, none, "hi", none, none⟩ "A" (some "B") false []
        (fun _ => none) "m1" 0).pushScheduled
      = !is_user_online [] (fun _ => none) "B" :=
  direct_message_delivery_and_push ⟨none, none, "hi", none, none⟩ "A" "B" false []
    (fun _ => none) "m1" 0 (by decide) rfl (by decide)

/-- Auxiliary for C5: while the history stays within the limit, each
`is_allowed` call appends its timestamp, allows the request, and preserves the
limiter's configuration. -/
theorem runCalls_hist (uid : String) :
    ∀ (ts : List ℚ) (rl : RateLimiter),
      (rl.request_history uid).length + ts.length ≤ rl.limit →
      (RateLimiter.runCalls rl uid ts).request_history uid
          = rl.request_history uid ++ ts
      ∧ (RateLimiter.runCalls rl uid ts).limit = rl.limit
      ∧ (RateLimiter.runCalls rl uid ts).window = rl.window := by
  intro ts
  induction ts with
  | nil =>
    intro rl h
    simp [RateLimiter.runCalls]
  | cons t ts ih =>
    intro rl h
    simp only [List.length_cons] at h
    have hda : dequeAppend (rl.limit + 1) (rl.request_history uid) t
        = rl.request_history uid ++ [t] := by
      unfold dequeAppend
      have hz : (rl.request_history uid ++ [t]).length - (rl.limit + 1) = 0 := by
        simp only [List.length_append, List.length_cons, List.length_nil]
        omega
      simp only [hz, List.drop_zero]
    have hstep : (rl.is_allowed uid t)
        = (true, rl.setHistory uid (rl.request_history uid ++ [t])) := by
      unfold RateLimiter.is_allowed
      simp only [hda]
      rw [if_pos]
      simp only [List.length_append, List.length_cons, List.length_nil]
      omega
    have hrl' : (rl.is_allowed uid t).2
        = rl.setHistory uid (rl.request_history uid ++ [t]) := by rw [hstep]
    have hhist : ((rl.is_allowed uid t).2).request_history uid
        = rl.request_history uid ++ [t] := by
      rw [hrl']; simp [RateLimiter.setHistory]
    have hlim : ((rl.is_allowed uid t).2).limit = rl.limit := by
      rw [hrl']; rfl
    have hwin : ((rl.is_allowed uid t).2).window = rl.window := by
      rw [hrl']; rfl
    have hbound : (((rl.is_allowed uid t).2).request_history uid).length + ts.length
        ≤ ((rl.is_allowed uid t).2).limit := by
      rw [hhist, hlim]
      simp only [List.length_append, List.length_cons, List.length_nil]
      omega
    obtain ⟨e1, e2, e3⟩ := ih ((rl.is_allowed uid t).2) hbound
    refine ⟨?_, ?_, ?_⟩
    · rw [RateLimiter.runCalls, e1, hhist, List.append_assoc]
      rfl
    · rw [RateLimiter.runCalls, e2, hlim]
    · rw [RateLimiter.runCalls, e3, hwin]

/-- C5: with `limit = N`, `window = W`, after `N` calls for one identity the
next call is rejected when it comes within `W` seconds of the first call (and
its timestamp is still recorded in the history), and accepted when it comes
more than `W` seconds after the first call. -/
theorem rate_limiter_boundary (N : Nat) (W : ℚ) (uid : String) (t1 : ℚ)
    (rest : List ℚ) (t : ℚ) (hlen : (t1 :: rest).length = N) :
    (t - t1 ≤ W →
      ((RateLimiter.runCalls (RateLimiter.init N W) uid (t1 :: rest)).is_allowed
          uid t).1 = false
      ∧ (((RateLimiter.runCalls (RateLimiter.init N W) uid
            (t1 :: rest)).is_allowed uid t).2).request_history uid
          = (t1 :: rest) ++ [t])
    ∧ (W < t - t1 →
      ((RateLimiter.runCalls (RateLimiter.init N W) uid (t1 :: rest)).is_allowed
          uid t).1 = true) := by
  obtain ⟨hh, hl, hw⟩ := runCalls_hist uid (t1 :: rest) (RateLimiter.init N W)
    (by simp [RateLimiter.init, hlen])
  have hinit : (RateLimiter.init N W).request_history uid = [] := rfl
  have hinitL : (RateLimiter.init N W).limit = N := rfl
  have hinitW : (RateLimiter.init N W).window = W := rfl
  rw [hinit, List.nil_append] at hh
  rw [hinitL] at hl
  rw [hinitW] at hw
  have hda : dequeAppend
      ((RateLimiter.runCalls (RateLimiter.init N W) uid (t1 :: rest)).limit + 1)
      ((RateLimiter.runCalls (RateLimiter.init N W) uid
          (t1 :: rest)).request_history uid) t
      = t1 :: (rest ++ [t]) := by
    rw [hh, hl]
    unfold dequeAppend
    have hz : (t1 :: (rest ++ [t])).length - (N + 1) = 0 := by
      simp only [List.length_cons, List.length_append, List.length_nil]
      simp only [List.length_cons] at hlen
      omega
    simp only [List.cons_append]
    simp only [hz, List.drop_zero]
  have hkey : (RateLimiter.runCalls (RateLimiter.init N W) uid
        (t1 :: rest)).is_allowed uid t
      = if W < t - t1 then
          (true, (RateLimiter.runCalls (RateLimiter.init N W) uid
            (t1 :: rest)).setHistory uid (rest ++ [t]))
        else
          (false, (RateLimiter.runCalls (RateLimiter.init N W) uid
            (t1 :: rest)).setHistory uid (t1 :: (rest ++ [t]))) := by
    unfold RateLimiter.is_allowed
    simp only [hda]
    rw [if_neg]
    · rw [hw]
    · rw [hl]
      simp only [List.length_cons, List.length_append, List.length_nil]
      simp only [List.length_cons] at hlen
      omega
  constructor
  · intro hle
    rw [hkey, if_neg (not_lt.mpr hle)]
    refine ⟨rfl, ?_⟩
    simp [RateLimiter.setHistory]
  · intro hgt
    rw [hkey, if_pos hgt]

/-- Witness for C5 at `limit = 1`, `window = 10`: a second call 5 s after the
first is rejected yet recorded; one 20 s after the first is allowed. -/
theorem rate_limiter_boundary_witness :
    (((RateLimiter.runCalls (RateLimiter.init 1 10) "u" [0]).is_allowed "u" 5).1
        = false
      ∧ (((RateLimiter.runCalls (RateLimiter.init 1 10) "u" [0]).is_allowed
            "u" 5).2).request_history "u" = [0] ++ [5])
    ∧ ((RateLimiter.runCalls (RateLimiter.init 1 10) "u" [0]).is_allowed
        "u" 20).1 = true :=
  ⟨(rate_limiter_boundary 1 10 "u" 0 [] 5 rfl).1 (by norm_num),
   (rate_limiter_boundary 1 10 "u" 0 [] 20 rfl).2 (by norm_num)⟩

/-- C9: the `NOT_FOUND` / `FORBIDDEN` error frames that the claim — and the
handlers' own code — intend are unreachable.  At a request for an absent
message, and at a request by a non-owner, the edit and delete handlers raise
`pydantic.ValidationError` while constructing `ErrorMessage` (string `code`,
missing `message`), send no frame themselves, and leave the store unchanged;
the dispatch loop's catch-all then answers with a code-500 frame instead. -/
theorem edit_delete_error_path_500 :
    -- NOT_FOUND case: `m1` in neither the cache nor the store
    ((handle_edit_message (fun _ => none) (fun _ => none)
        ⟨some "m1", none, some "x"⟩ "A" 0).db = (fun _ => none))
    ∧ (handle_edit_message (fun _ => none) (fun _ => none)
        ⟨some "m1", none, some "x"⟩ "A" 0).frames = []
    ∧ (handle_edit_message (fun _ => none) (fun _ => none)
        ⟨some "m1", none, some "x"⟩ "A" 0).raised = true
    ∧ (handle_delete_message (fun _ => none) (fun _ => none)
        ⟨some "m1", none, none⟩ "A" 0).db = (fun _ => none)
    ∧ (handle_delete_message (fun _ => none) (fun _ => none)
        ⟨some "m1", none, none⟩ "A" 0).frames = []
    ∧ (handle_delete_message (fun _ => none) (fun _ => none)
        ⟨some "m1", none, none⟩ "A" 0).raised = true
    -- FORBIDDEN case: `m1` owned by `C`, edited/deleted by `A`
    ∧ (handle_edit_message (fun _ => none)
        (fun i => if i = "m1" then some { _id := "m1", sender_id := "C" } else none)
        ⟨some "m1", none, some "x"⟩ "A" 0).db
      = (fun i => if i = "m1" then some { _id := "m1", sender_id := "C" } else none)
    ∧ (handle_edit_message (fun _ => none)
        (fun i => if i = "m1" then some { _id := "m1", sender_id := "C" } else none)
        ⟨some "m1", none, some "x"⟩ "A" 0).frames = []
    ∧ (handle_edit_message (fun _ => none)
        (fun i => if i = "m1" then some { _id := "m1", sender_id := "C" } else none)
        ⟨some "m1", none, some "x"⟩ "A" 0).raised = true
    ∧ (handle_delete_message (fun _ => none)
        (fun i => if i = "m1" then some { _id := "m1", sender_id := "C" } else none)
        ⟨some "m1", none, none⟩ "A" 0).db
      = (fun i => if i = "m1" then some { _id := "m1", sender_id := "C" } else none)
    ∧ (handle_delete_message (fun _ => none)
        (fun i => if i = "m1" then some { _id := "m1", sender_id := "C" } else none)
        ⟨some "m1", none, none⟩ "A" 0).frames = []
    ∧ (handle_delete_message (fun _ => none)
        (fun i => if i = "m1" then some { _id := "m1", sender_id := "C" } else none)
        ⟨some "m1", none, none⟩ "A" 0).raised = true
    -- what the client receives instead of NOT_FOUND / FORBIDDEN
    ∧ dispatchExceptionFrames true
      = [.errorMsg (.num 500) "Internal server error"] :=
  ⟨rfl, rfl, rfl, rfl, rfl, rfl, rfl, rfl, rfl, rfl, rfl, rfl, rfl⟩

/-- C2 counterexample: the last-admin guard in `remove_group_member` is
skipped for self-removal (`if user_id != current_user:`), so the sole active
admin of `{A(admin), B(member)}` can remove themselves, leaving the group with
zero active admins — the operation succeeds instead of being rejected. -/
theorem last_admin_self_removal :
    remove_group_member ⟨"A", [⟨"A", "admin", true⟩, ⟨"B", "member", true⟩]⟩ "A" "A"
      = .ok ⟨"A", [⟨"A", "admin", false⟩, ⟨"B", "member", true⟩]⟩
    ∧ activeAdminCount [⟨"A", "admin", true⟩, ⟨"B", "member", true⟩] = 1
    ∧ activeAdminCount [⟨"A", "admin", false⟩, ⟨"B", "member", true⟩] = 0 := by
  refine ⟨?_, by decide, by decide⟩
  rfl

/-- Splitting lemma for the active-admin count. -/
theorem activeAdminCount_cons (m : GroupMember) (ms : List GroupMember) :
    activeAdminCount (m :: ms)
      = (if (m.role == "admin" && m.is_active) = true then 1 else 0)
          + activeAdminCount ms := by
  simp only [activeAdminCount, List.filter_cons]
  split <;> simp [Nat.add_comm]

/-- Rewriting one member (Mongo's positional update) lowers the active-admin
count by at most one. -/
theorem activeAdminCount_modifyFirst (f : GroupMember → GroupMember)
    (ms : List GroupMember) (uid : String) :
    activeAdminCount ms ≤ activeAdminCount (modifyFirst f ms uid) + 1 := by
  induction ms with
  | nil => simp [modifyFirst]
  | cons m ms ih =>
    by_cases h : (m.user_id == uid) = true
    · simp only [modifyFirst, if_pos h, activeAdminCount_cons]
      split <;> split <;> omega
    · simp only [modifyFirst, if_neg h, activeAdminCount_cons]
      omega

/-- C2 (amended): with the caller an active member and active admin and the
target an active member of the group: removing or demoting (via
`role="member"`) *another* user who is the last active admin is rejected (the
group is returned unchanged because the route raises before its update), and
removal/demotion while at least two active admins exist succeeds and leaves at
least one active admin.  (Self-removal by the last active admin, and
deactivation through the role-update endpoint's `is_active` field, bypass the
guard — see the counterexample.) -/
theorem last_admin_guard (g : Group) (current_user user_id : String)
    (tm : GroupMember)
    (h_mem : isActiveMember g current_user = true)
    (h_adm : isActiveAdmin g current_user = true)
    (h_ne : (user_id == current_user) = false)
    (h_tm : findActiveMember g user_id = some tm) :
    (tm.role = "admin" → activeAdminCount g.members = 1 →
      remove_group_member g current_user user_id
        = .error "Cannot remove the last admin. Promote another member to admin first.")
    ∧ (2 ≤ activeAdminCount g.members →
      ∃ g', remove_group_member g current_user user_id = .ok g'
        ∧ 1 ≤ activeAdminCount g'.members)
    ∧ (tm.role = "admin" → activeAdminCount g.members = 1 →
      update_group_member_role g current_user user_id (some "member") none
        = .error "Cannot demote the last admin. Promote another member to admin first.")
    ∧ (2 ≤ activeAdminCount g.members →
      ∃ g', update_group_member_role g current_user user_id (some "member") none
          = .ok g' ∧ 1 ≤ activeAdminCount g'.members) := by
  refine ⟨?_, ?_, ?_, ?_⟩
  · intro hrole hcount
    simp [remove_group_member, h_mem, h_adm, h_ne, h_tm, hrole, hcount]
  · intro hcount
    have hbeq : (activeAdminCount g.members == 1) = false := by
      simp only [beq_eq_false_iff_ne, ne_eq]
      omega
    have hok : remove_group_member g current_user user_id
        = .ok (Group.mk g.creator_id
            (modifyFirst (fun m => { m with is_active := false }) g.members user_id)) := by
      simp [remove_group_member, h_mem, h_adm, h_ne, h_tm, hbeq]
    refine ⟨_, hok, ?_⟩
    show 1 ≤ activeAdminCount
      (modifyFirst (fun m => { m with is_active := false }) g.members user_id)
    have := activeAdminCount_modifyFirst
      (fun m => { m with is_active := false }) g.members user_id
    omega
  · intro hrole hcount
    simp [update_group_member_role, h_adm, h_tm, hrole, hcount]
  · intro hcount
    have hbeq : (activeAdminCount g.members == 1) = false := by
      simp only [beq_eq_false_iff_ne, ne_eq]
      omega
    have hok : update_group_member_role g current_user user_id (some "member") none
        = .ok (Group.mk g.creator_id
            (modifyFirst (fun m => { m with role := "member" }) g.members user_id)) := by
      simp [update_group_member_role, h_adm, h_tm, hbeq]
    refine ⟨_, hok, ?_⟩
    show 1 ≤ activeAdminCount
      (modifyFirst (fun m => { m with role := "member" }) g.members user_id)
    have := activeAdminCount_modifyFirst
      (fun m => { m with role := "member" }) g.members user_id
    omega

/-- Witness for the amended C2 theorem: two active admins, `A` removes or
demotes `B`, the group keeps an active admin. -/
theorem last_admin_guard_witness :
    (∃ g', remove_group_member
        ⟨"A", [⟨"A", "admin", true⟩, ⟨"B", "admin", true⟩]⟩ "A" "B" = .ok g'
      ∧ 1 ≤ activeAdminCount g'.members)
    ∧ (∃ g', update_group_member_role
        ⟨"A", [⟨"A", "admin", true⟩, ⟨"B", "admin", true⟩]⟩ "A" "B"
        (some "member") none = .ok g'
      ∧ 1 ≤ activeAdminCount g'.members) :=
  ⟨(last_admin_guard ⟨"A", [⟨"A", "admin", true⟩, ⟨"B", "admin", true⟩]⟩ "A" "B"
      ⟨"B", "admin", true⟩ (by decide) (by decide) (by decide) (by decide)).2.1
    (by decide),
   (last_admin_guard ⟨"A", [⟨"A", "admin", true⟩, ⟨"B", "admin", true⟩]⟩ "A" "B"
      ⟨"B", "admin", true⟩ (by decide) (by decide) (by decide) (by decide)).2.2.2
    (by decide)⟩

/-- C4 counterexample: two messaging-subsystem store calls run without holding
the store-gate semaphore — the batched write buffer's `insert_many`
(`flush_messages_to_db`, guarded only by `db_flush_lock`) and the edit
handler's fallback `find_one` after a cache-and-store miss. -/
theorem store_gate_bypass :
    (StoreCall.mk .insertMany false) ∈ flush_messages_to_db_calls true
    ∧ (StoreCall.mk .findOne false) ∈ handle_edit_message_calls true false false true :=
  ⟨by decide, by decide⟩

/-- C4 (amended): the cache-miss lookups (`get_cached_user`,
`get_cached_message`), the status-update path, and the read-receipt queries
all hold the store-gate semaphore for every store call (with release on every
exit path, as `async with` guarantees); the exceptions are the batched write
buffer's bulk `insert_many` and the edit/delete handlers' fallback `find_one`,
which run without a permit — in the edit/delete traces the fallback lookup is
the only ungated call. -/
theorem store_gate_coverage :
    (∀ b : Bool, ∀ c ∈ get_cached_user_calls b, c.gated = true)
    ∧ (∀ b : Bool, ∀ c ∈ get_cached_message_calls b, c.gated = true)
    ∧ (∀ a b c : Bool, ∀ x ∈ update_message_status_calls a b c, x.gated = true)
    ∧ (∀ a b : Bool, ∀ x ∈ handle_read_receipt_calls a b, x.gated = true)
    ∧ (∀ l : List Bool, ∀ x ∈ handle_read_receipt_batch_calls l, x.gated = true)
    ∧ (∀ p : Bool, ∀ x ∈ flush_messages_to_db_calls p, x.gated = false)
    ∧ (∀ a b c d : Bool, ∀ x ∈ handle_edit_message_calls a b c d,
        x.gated = false → x = ⟨.findOne, false⟩)
    ∧ (∀ a b c d : Bool, ∀ x ∈ handle_delete_message_calls a b c d,
        x.gated = false → x = ⟨.findOne, false⟩) := by
  refine ⟨by decide, by decide, by decide, by decide, ?_, by decide, by decide,
    by decide⟩
  intro l
  induction l with
  | nil => intro x hx; simp [handle_read_receipt_batch_calls] at hx
  | cons b bs ih =>
    intro x hx
    simp only [handle_read_receipt_batch_calls, List.map_cons, List.flatten_cons,
      List.mem_append] at hx
    rcases hx with hx | hx
    · cases b
      · simp at hx
        simp [hx]
      · simp at hx
        rcases hx with hx | hx <;> simp [hx]
    · exact ih x hx

/-- Witness for the amended C4 theorem: a gated cache-miss lookup and the
ungated bulk insert. -/
theorem store_gate_coverage_witness :
    (StoreCall.mk .findOne true).gated = true
    ∧ (StoreCall.mk .insertMany false).gated = false :=
  ⟨store_gate_coverage.1 false ⟨.findOne, true⟩ (by decide),
   store_gate_coverage.2.2.2.2.2.1 true ⟨.insertMany, false⟩ (by decide)⟩

/-- `markRead` changes neither a document's existence nor its recipient, so a
bulk read-update does not affect which ids are addressed to the reader. -/
theorem addressedTo_after_update (store : Store) (u : String) (sel : List String)
    (now : Nat) (i : String) :
    addressedTo (fun j => if j ∈ sel then (store j).map (markRead now) else store j) u i
      = addressedTo store u i := by
  by_cases h : i ∈ sel
  · simp only [addressedTo, if_pos h]
    cases store i <;> simp [markRead]
  · simp only [addressedTo, if_neg h]

/-- Marking a document read twice is the same as marking it once. -/
theorem map_markRead_idem (o : Option MsgDoc) (now : Nat) :
    (o.map (markRead now)).map (markRead now) = o.map (markRead now) := by
  cases o <;> simp [markRead]

/-- `markRead` is idempotent, as a function composition. -/
theorem markRead_comp (now : Nat) :
    markRead now ∘ markRead now = markRead now :=
  funext fun _ => rfl

/-- Characterization of the chunked processing in `handle_read_receipt_batch`:
a document is transitioned exactly when its id occurs in the batch and the
document is addressed to the reader, and `valid_messages` collects exactly
those ids. -/
theorem processChunks_spec (now : Nat) (u : String) :
    ∀ (n : Nat) (ids : List String), ids.length ≤ n → ∀ store : Store,
      (∀ i, (processChunks now u store ids).1 i
          = if i ∈ ids ∧ addressedTo store u i = true
            then (store i).map (markRead now) else store i)
      ∧ (∀ i, i ∈ (processChunks now u store ids).2
          ↔ (i ∈ ids ∧ addressedTo store u i = true)) := by
  intro n
  induction n with
  | zero =>
    intro ids hlen store
    have hids : ids = [] := List.length_eq_zero.mp (Nat.le_zero.mp hlen)
    subst hids
    rw [processChunks]
    simp
  | succ n ih =>
    intro ids hlen store
    by_cases hids : ids.isEmpty = true
    · have : ids = [] := List.isEmpty_iff.mp hids
      subst this
      rw [processChunks]
      simp
    · have heq : processChunks now u store ids
          = ((processChunks now u
                (fun i => if i ∈ (ids.take 50).filter (addressedTo store u)
                  then (store i).map (markRead now) else store i)
                (ids.drop 50)).1,
             ((ids.take 50).filter (addressedTo store u))
               ++ (processChunks now u
                (fun i => if i ∈ (ids.take 50).filter (addressedTo store u)
                  then (store i).map (markRead now) else store i)
                (ids.drop 50)).2) := by
        rw [processChunks]
        simp [hids]
      have hlen' : (ids.drop 50).length ≤ n := by
        have hpos : 0 < ids.length :=
          List.length_pos.mpr (fun hnil => hids (by simp [hnil]))
        simp only [List.length_drop]
        omega
      obtain ⟨ih1, ih2⟩ := ih (ids.drop 50) hlen'
        (fun i => if i ∈ (ids.take 50).filter (addressedTo store u)
          then (store i).map (markRead now) else store i)
      have hA : ∀ i, addressedTo
          (fun i => if i ∈ (ids.take 50).filter (addressedTo store u)
            then (store i).map (markRead now) else store i) u i
          = addressedTo store u i :=
        fun i => addressedTo_after_update store u _ now i
      have hsplit : ∀ j : String, j ∈ ids ↔ j ∈ ids.take 50 ∨ j ∈ ids.drop 50 := by
        intro j
        conv_lhs => rw [← List.take_append_drop 50 ids]
        exact List.mem_append
      constructor
      · intro i
        rw [heq]
        dsimp only
        rw [ih1 i]
        simp only [hA]
        by_cases hAi : addressedTo store u i = true
        · by_cases hc : i ∈ ids.take 50
          · have hexi : i ∈ (ids.take 50).filter (addressedTo store u) :=
              List.mem_filter.mpr ⟨hc, hAi⟩
            have hin : i ∈ ids := (hsplit i).mpr (Or.inl hc)
            by_cases hd : i ∈ ids.drop 50
            · simp [hd, hAi, hexi, hin, Option.map_map, markRead_comp]
            · simp [hd, hAi, hexi, hin]
          · have hexi : i ∉ (ids.take 50).filter (addressedTo store u) := by
              intro hmem
              exact hc (List.mem_filter.mp hmem).1
            by_cases hd : i ∈ ids.drop 50
            · have hin : i ∈ ids := (hsplit i).mpr (Or.inr hd)
              simp [hd, hAi, hexi, hin]
            · have hin : i ∉ ids := by
                intro hmem
                rcases (hsplit i).mp hmem with h | h
                · exact hc h
                · exact hd h
              simp [hd, hAi, hexi, hin]
        · have hexi : i ∉ (ids.take 50).filter (addressedTo store u) := by
            intro hmem
            exact hAi (List.mem_filter.mp hmem).2
          simp [hAi, hexi]
      · intro i
        rw [heq]
        dsimp only
        rw [List.mem_append, ih2 i, hA i]
        constructor
        · rintro (hmem | ⟨hd, hAi⟩)
          · have hmf := List.mem_filter.mp hmem
            exact ⟨(hsplit i).mpr (Or.inl hmf.1), hmf.2⟩
          · exact ⟨(hsplit i).mpr (Or.inr hd), hAi⟩
        · rintro ⟨hin, hAi⟩
          rcases (hsplit i).mp hin with hc | hd
          · exact Or.inl (List.mem_filter.mpr ⟨hc, hAi⟩)
          · exact Or.inr ⟨hd, hAi⟩

/-- C3: for a `read_receipt_batch` from `U`, exactly the ids that exist in the
store with `recipient_id = U` transition to read status with `read_at` set;
all other documents are unchanged; `valid_messages` is exactly the authorized
subset; and every frame the handler emits is a batch-receipt notification
carrying exactly that subset (no error frame is ever sent). -/
theorem read_receipt_batch_filter (payload : BatchPayload) (from_user cid : String)
    (active_connections : List String) (store : Store) (now : Nat)
    (hids : payload.messageIds ≠ []) (hcid : payload.contactId = some cid)
    (hc : cid ≠ "") :
    (∀ i, (handle_read_receipt_batch payload from_user active_connections
          store now).store i
        = if i ∈ payload.messageIds ∧ addressedTo store from_user i = true
          then (store i).map (markRead now) else store i)
    ∧ (∀ i, i ∈ (handle_read_receipt_batch payload from_user active_connections
          store now).valid_messages
        ↔ (i ∈ payload.messageIds ∧ addressedTo store from_user i = true))
    ∧ (∀ out ∈ (handle_read_receipt_batch payload from_user active_connections
          store now).frames,
        ∃ tgt contact, out = .personal tgt (.readReceiptBatch from_user tgt
          (handle_read_receipt_batch payload from_user active_connections
            store now).valid_messages contact)) := by
  obtain ⟨hspec1, hspec2⟩ := processChunks_spec now from_user
    payload.messageIds.length payload.messageIds le_rfl store
  have hguard : (payload.messageIds.isEmpty || (payload.contactId.getD "" == ""))
      = false := by
    simp [hcid, hc, List.isEmpty_eq_false.mpr hids]
  have hstore : (handle_read_receipt_batch payload from_user active_connections
        store now).store
      = (processChunks now from_user store payload.messageIds).1 := by
    rw [handle_read_receipt_batch]
    simp only [hguard, Bool.false_eq_true, if_false]
    split <;> rfl
  have hvalid : (handle_read_receipt_batch payload from_user active_connections
        store now).valid_messages
      = (processChunks now from_user store payload.messageIds).2 := by
    rw [handle_read_receipt_batch]
    simp only [hguard, Bool.false_eq_true, if_false]
    split <;> rfl
  refine ⟨?_, ?_, ?_⟩
  · intro i
    rw [hstore]
    exact hspec1 i
  · intro i
    rw [hvalid]
    exact hspec2 i
  · intro out hout
    rw [hvalid]
    rw [handle_read_receipt_batch] at hout
    simp only [hguard, Bool.false_eq_true, if_false] at hout
    by_cases hv : (processChunks now from_user store payload.messageIds).2.isEmpty
    · rw [if_pos hv] at hout
      simp at hout
    · rw [if_neg hv] at hout
      simp only [List.mem_append] at hout
      rcases hout with hout | hout
      · by_cases hon : payload.contactId.getD "" ∈ active_connections
        · rw [if_pos hon] at hout
          simp only [List.mem_singleton] at hout
          exact ⟨_, _, hout⟩
        · rw [if_neg hon] at hout
          simp at hout
      · obtain ⟨conn, _, hconn⟩ := List.mem_map.mp hout
        exact ⟨conn, _, hconn.symm⟩

/-- Witness for C3: reader `B` sends a batch for `[m1, m2]` where `m1` is
addressed to `B` and `m2` to `D`. -/
theorem read_receipt_batch_filter_witness :
    ("m1" ∈ (handle_read_receipt_batch ⟨["m1", "m2"], some "S"⟩ "B" ["S"]
        witnessStore 7).valid_messages
      ↔ ("m1" ∈ (["m1", "m2"] : List String)
          ∧ addressedTo witnessStore "B" "m1" = true))
    ∧ (∀ i, (handle_read_receipt_batch ⟨["m1", "m2"], some "S"⟩ "B" ["S"]
        witnessStore 7).store i
        = if i ∈ (["m1", "m2"] : List String)
              ∧ addressedTo witnessStore "B" i = true
          then (witnessStore i).map (markRead 7) else witnessStore i) :=
  ⟨(read_receipt_batch_filter ⟨["m1", "m2"], some "S"⟩ "B" "S" ["S"] witnessStore 7
      (by decide) rfl (by decide)).2.1 "m1",
   (read_receipt_batch_filter ⟨["m1", "m2"], some "S"⟩ "B" "S" ["S"] witnessStore 7
      (by decide) rfl (by decide)).1⟩

/-- C1 counterexample: a drain cycle with a non-empty reader buffer sends the
consolidated batch notifications but issues no store update at all — the loop
body of `process_read_receipts` contains no document-store call, so the
claimed per-group bulk `status=read` update does not happen. -/
theorem drain_cycle_no_store_update :
    (drainCycle [("B:phone", [⟨"m1", "A", some "A"⟩])]
        ["A", "B:phone", "B:tab"]).storeUpdates = []
    ∧ (drainCycle [("B:phone", [⟨"m1", "A", some "A"⟩])]
        ["A", "B:phone", "B:tab"]).frames ≠ [] :=
  ⟨rfl, by decide⟩

/-- C1 (amended): the drain loop issues *no* bulk store update —
`storeUpdates` is empty for every input, so read-status persistence happens
only in the `read_receipt_batch` handler.  It groups each reader's pending
receipts by the original sender and, per group with a non-empty id list,
sends one consolidated batch notification to the sender's connection (when
connected) besides the reader's other-device copies — *provided* none of the
reader's groups was buffered without a contact id; otherwise the
`ReadReceiptBatchMessage` construction fails validation inside the per-reader
`try` and all of that reader's notifications for the cycle are silently
dropped (last conjunct). -/
theorem drain_cycle_notifies_without_store (buffer : List (String × List Receipt))
    (conns : List String) (reader : String) (rs : List Receipt) (recipient : String)
    (hmem : (reader, rs) ∈ buffer) (hne : rs ≠ [])
    (hkey : recipient ∈ dictGroupKeys rs)
    (hids : groupMessageIds rs recipient ≠ [])
    (hconn : recipient ∈ conns)
    (hraise : drainReaderRaises rs = false) :
    (drainCycle buffer conns).storeUpdates = []
    ∧ WsOut.personal recipient
        (.readReceiptBatch reader recipient (groupMessageIds rs recipient)
          (((groupReceipts rs recipient).headD ⟨"", "", none⟩).contact_id))
      ∈ (drainCycle buffer conns).frames
    ∧ (∀ (buf2 : List (String × List Receipt)) (conns2 : List String),
        (∀ p ∈ buf2, drainReaderRaises p.2 = true) →
        (drainCycle buf2 conns2).frames = []) := by
  refine ⟨rfl, ?_, ?_⟩
  · have hpend : (reader, rs) ∈ buffer.filter (fun p => !p.2.isEmpty) :=
      List.mem_filter.mpr ⟨hmem, by simp [hne]⟩
    apply List.mem_flatten.mpr
    refine ⟨drainReaderFrames reader rs conns,
      List.mem_map_of_mem (fun p => drainReaderFrames p.1 p.2 conns) hpend, ?_⟩
    show _ ∈ drainReaderFrames reader rs conns
    unfold drainReaderFrames
    rw [if_neg (by simp [hraise])]
    apply List.mem_flatten.mpr
    refine ⟨_, List.mem_map_of_mem _ hkey, ?_⟩
    dsimp only
    rw [if_neg (by simp [hids])]
    apply List.mem_append_left
    rw [if_pos hconn]
    exact List.mem_singleton.mpr rfl
  · intro buf2 conns2 hall
    show ((buf2.filter (fun p => !p.2.isEmpty)).map
        (fun p => drainReaderFrames p.1 p.2 conns2)).flatten = []
    rw [List.flatten_eq_nil_iff]
    intro x hx
    obtain ⟨p, hp, rfl⟩ := List.mem_map.mp hx
    have hp2 : p ∈ buf2 := List.mem_of_mem_filter hp
    simp [drainReaderFrames, hall p hp2]

/-- Witness for the amended C1 theorem at a concrete buffer: reader `B:phone`
read `m1` sent by `A` with the contact id present; `A` is connected. -/
theorem drain_cycle_notifies_witness :
    (drainCycle [("B:phone", [⟨"m1", "A", some "A"⟩])]
        ["A", "B:phone", "B:tab"]).storeUpdates = []
    ∧ WsOut.personal "A"
        (.readReceiptBatch "B:phone" "A"
          (groupMessageIds [⟨"m1", "A", some "A"⟩] "A")
          (((groupReceipts [⟨"m1", "A", some "A"⟩] "A").headD
            ⟨"", "", none⟩).contact_id))
      ∈ (drainCycle [("B:phone", [⟨"m1", "A", some "A"⟩])]
          ["A", "B:phone", "B:tab"]).frames
    ∧ (∀ (buf2 : List (String × List Receipt)) (conns2 : List String),
        (∀ p ∈ buf2, drainReaderRaises p.2 = true) →
        (drainCycle buf2 conns2).frames = []) :=
  drain_cycle_notifies_without_store [("B:phone", [⟨"m1", "A", some "A"⟩])]
    ["A", "B:phone", "B:tab"] "B:phone" [⟨"m1", "A", some "A"⟩] "A"
    (by decide) (by decide) (by decide) (by decide) (by decide) (by decide)

end EZChat
